import Mathlib

/-!
Shallow embedding of two sos report plugins: `sos/report/plugins/ceph_mgr.py`
(class `CephMGR`) and `sos/plugins/samba.py` (class `Samba`).

The plugins are declarative: `setup` issues a sequence of requests to the
surrounding framework (`add_copy_spec`, `add_forbidden_path`, `add_file_tags`,
`add_cmd_output`).  We model one `setup` run as a pure function from the
environment the framework supplies (package-manager lookup result, probe exit
status, the `os.walk` view of the filesystem) to the record of all requests
issued, in issue order within each request kind.
-/

namespace Sos

/-- One entry of the sequence produced by `os.walk`: the directory being
visited, its subdirectory names and its file names. -/
structure WalkEntry where
  rdir : String
  dirs : List String
  files : List String
deriving DecidableEq, Repr

/-- The `os.walk` primitive as the plugin consumes it: for a root directory,
the finite sequence of visited entries (empty when the root does not exist). -/
def Walk : Type := String → List WalkEntry

/-- Environment supplied by the framework to one `CephMGR.setup` run:
`microceph_pkg` is the truthiness of
`self.policy.package_manager.pkg_by_name('microceph')`, `orch_status` is
`self.exec_cmd('ceph orch status')['status']`, and `walk` is `os.walk`. -/
structure Env where
  microceph_pkg : Bool
  orch_status : Int
  walk : Walk

/-- One `add_cmd_output` request: the command list and the optional `subdir`
keyword argument. -/
structure CmdCall where
  cmds : List String
  subdir : Option String
deriving DecidableEq, Repr

/-- All requests a `CephMGR.setup` run issues to the framework. -/
structure Effects where
  file_tags : List (String × String)
  forbidden_paths : List String
  copy_specs : List String
  cmd_outputs : List CmdCall
deriving DecidableEq, Repr

/-- `self.path_join(rdir, file)` for a relative `file` name. -/
def path_join (a b : String) : String := a ++ "/" ++ b

/-- Python `s.startswith(pre)`, expressed on the character lists. -/
def str_startswith (s pre : String) : Bool := pre.data.isPrefixOf s.data

/-- Python `s.endswith(suf)`, expressed on the character lists. -/
def str_endswith (s suf : String) : Bool := suf.data.isSuffixOf s.data

/-- `CephMGR.get_socks`: walk `directory` and collect every file whose name
starts with `ceph-mgr` and ends with `.asok`, joined to its directory. -/
def get_socks (w : Walk) (directory : String) : List String :=
  (w directory).flatMap fun e =>
    (e.files.filter fun file =>
      str_startswith file "ceph-mgr" && str_endswith file ".asok").map fun file =>
        path_join e.rdir file

/-- The unconditional part of `ceph_mgr_cmds` in `CephMGR.setup`. -/
def ceph_mgr_base_cmds : List String := [
  "balancer status",
  "healthcheck history ls",
  "log last cephadm",
  "mgr dump",
  "mgr metadata",
  "mgr module ls",
  "mgr stat",
  "mgr versions"
]

/-- The commands appended to `ceph_mgr_cmds` when the orchestrator probe
exits with status 0. -/
def ceph_orch_cmds : List String := [
  "orch host ls",
  "orch device ls",
  "orch ls",
  "orch ls --export",
  "orch ps",
  "orch status --detail",
  "orch upgrade status"
]

/-- The fixed per-daemon (admin-socket) command list `cmds` in
`CephMGR.setup`. -/
def ceph_daemon_cmds : List String := [
  "config diff",
  "config show",
  "counter dump",
  "counter schema",
  "dump_cache",
  "dump_mempools",
  "dump_osd_network",
  "mds_requests",
  "mds_sessions",
  "objecter_requests",
  "perf dump",
  "perf histogram dump",
  "perf histogram schema",
  "perf schema",
  "status",
  "version"
]

/-- The `add_file_tags` argument of the standard-Ceph branch. -/
def standard_file_tags : List (String × String) :=
  [("/var/log/ceph/(.*/)?ceph-mgr.*.log", "ceph_mgr_log")]

/-- The `add_forbidden_path` argument of the standard-Ceph branch. -/
def standard_forbidden : List String := [
  "/etc/ceph/*keyring*",
  "/var/lib/ceph/**/*keyring*",
  "/var/lib/ceph/**/osd*",
  "/var/lib/ceph/**/mon*",
  "/var/lib/ceph/**/tmp/*mnt*",
  "/etc/ceph/*bindpass*"
]

/-- The `add_copy_spec` argument of the standard-Ceph branch. -/
def standard_copy_spec : List String := [
  "/var/log/ceph/**/ceph-mgr*.log",
  "/var/lib/ceph/**/mgr*",
  "/var/lib/ceph/**/bootstrap-mgr/",
  "/run/ceph/**/ceph-mgr*"
]

/-- The `add_file_tags` argument of the microceph branch. -/
def microceph_file_tags : List (String × String) :=
  [("/var/snap/microceph/common/logs/ceph-mgr.*.log", "ceph_mgr_log")]

/-- The `add_forbidden_path` argument of the microceph branch. -/
def microceph_forbidden : List String :=
  ["/var/snap/microceph/common/**/*keyring*"]

/-- The `add_copy_spec` argument of the microceph branch. -/
def microceph_copy_spec : List String :=
  ["/var/snap/microceph/common/logs/ceph-mgr*.log"]

/-- The three `add_cmd_output` calls at the end of `CephMGR.setup`, in source
order: plain commands, JSON commands into `json_output`, and the per-socket
daemon commands. -/
def cmd_calls (ceph_mgr_cmds cmds socks : List String) : List CmdCall := [
  { cmds := ceph_mgr_cmds.map fun cmd => "ceph " ++ cmd,
    subdir := none },
  { cmds := ceph_mgr_cmds.map fun cmd => "ceph " ++ cmd ++ " --format json-pretty",
    subdir := some "json_output" },
  { cmds := socks.flatMap fun m => cmds.map fun cmd => "ceph daemon " ++ m ++ " " ++ cmd,
    subdir := none }
]

/-- `CephMGR.setup`, translated statement by statement from the source. -/
def CephMGR.setup (env : Env) : Effects :=
  let microceph_pkg := env.microceph_pkg
  let ceph_mgr_cmds :=
    ceph_mgr_base_cmds ++ (if env.orch_status = 0 then ceph_orch_cmds else [])
  let cmds := ceph_daemon_cmds
  if !microceph_pkg then
    let directory := "/var/run/ceph"
    { file_tags := standard_file_tags
      forbidden_paths := standard_forbidden
      copy_specs := standard_copy_spec
      cmd_outputs := cmd_calls ceph_mgr_cmds cmds (get_socks env.walk directory) }
  else
    let directory := "/var/snap/microceph"
    { file_tags := microceph_file_tags
      forbidden_paths := microceph_forbidden
      copy_specs := microceph_copy_spec
      cmd_outputs := cmd_calls ceph_mgr_cmds cmds (get_socks env.walk directory) }

/-- The first `add_cmd_output` request of a run (plain command list). -/
def plain_call (e : Effects) : CmdCall := e.cmd_outputs.getD 0 { cmds := [], subdir := none }

/-- The second `add_cmd_output` request of a run (JSON command list). -/
def json_call (e : Effects) : CmdCall := e.cmd_outputs.getD 1 { cmds := [], subdir := none }

/-- The third `add_cmd_output` request of a run (per-socket daemon commands). -/
def daemon_call (e : Effects) : CmdCall := e.cmd_outputs.getD 2 { cmds := [], subdir := none }

/-- The admin-socket scan base directory selected by `CephMGR.setup`. -/
def scan_dir (microceph_pkg : Bool) : String :=
  if !microceph_pkg then "/var/run/ceph" else "/var/snap/microceph"

/-- All requests a `Samba.setup` run issues to the framework. -/
structure SambaEffects where
  copy_specs : List String
  cmd_outputs : List String
deriving DecidableEq, Repr

/-- `Samba.setup`: one `add_copy_specs` call with two patterns, then three
single-command `add_cmd_output` calls, unconditionally. -/
def Samba.setup : SambaEffects :=
  { copy_specs := ["/etc/samba", "/var/log/samba/*"]
    cmd_outputs := [
      "wbinfo --domain=\x27.\x27 -g",
      "wbinfo --domain=\x27.\x27 -u",
      "testparm -s -v"
    ] }

/-- A walk function for a host with no admin sockets anywhere. -/
def empty_walk : Walk := fun _ => []

/-- Concrete environment: no microceph package, orchestrator probe fails. -/
def env_std_noorch : Env :=
  { microceph_pkg := false, orch_status := 1, walk := empty_walk }

/-- Concrete environment: microceph package present. -/
def env_micro : Env :=
  { microceph_pkg := true, orch_status := 1, walk := empty_walk }

/-- Walk of a tree holding `ceph-mgr.asok`, `ceph-mgr.2.asok` and
`other.asok` directly under `/var/run/ceph`. -/
def example_walk : Walk := fun d =>
  if d = "/var/run/ceph" then
    [{ rdir := "/var/run/ceph", dirs := [],
       files := ["ceph-mgr.asok", "ceph-mgr.2.asok", "other.asok"] }]
  else []

/-- Concrete environment: standard Ceph, orchestrator available, three files
under the scan root of which two are manager admin sockets. -/
def env_socks : Env :=
  { microceph_pkg := false, orch_status := 0, walk := example_walk }

/-- Concrete environment: microceph present, orchestrator available, no
admin sockets anywhere. -/
def env_nosocks : Env :=
  { microceph_pkg := true, orch_status := 0, walk := empty_walk }

/-- `CephMGR.setup` with every framework interaction sequenced in an
exception monad.  Under the claim C8 precondition the framework primitives
return normally, so they appear as total functions of the environment; the
plugin body itself contains no `raise`, hence no step of the sequence can
produce `Except.error`. -/
def CephMGR.setupE (env : Env) : Except String Effects := do
  let microceph_pkg ← pure env.microceph_pkg
  let orch_configured ← pure env.orch_status
  let ceph_mgr_cmds :=
    ceph_mgr_base_cmds ++ (if orch_configured = 0 then ceph_orch_cmds else [])
  let cmds := ceph_daemon_cmds
  if !microceph_pkg then
    let directory := "/var/run/ceph"
    let socks ← pure (get_socks env.walk directory)
    pure { file_tags := standard_file_tags
           forbidden_paths := standard_forbidden
           copy_specs := standard_copy_spec
           cmd_outputs := cmd_calls ceph_mgr_cmds cmds socks }
  else
    let directory := "/var/snap/microceph"
    let socks ← pure (get_socks env.walk directory)
    pure { file_tags := microceph_file_tags
           forbidden_paths := microceph_forbidden
           copy_specs := microceph_copy_spec
           cmd_outputs := cmd_calls ceph_mgr_cmds cmds socks }

/-! ## Helper lemmas shared by several claims -/

/-- The plain command request of any run is the (possibly orch-extended)
manager command list, each entry under the `ceph ` executable. -/
theorem plain_call_setup (env : Env) :
    (plain_call (CephMGR.setup env)).cmds
      = (ceph_mgr_base_cmds
          ++ if env.orch_status = 0 then ceph_orch_cmds else []).map
            (fun cmd => "ceph " ++ cmd) := by
  cases env with
  | mk mp os w => cases mp <;> rfl

/-- The JSON command request of any run, in terms of the same list. -/
theorem json_call_setup (env : Env) :
    (json_call (CephMGR.setup env)).cmds
      = (ceph_mgr_base_cmds
          ++ if env.orch_status = 0 then ceph_orch_cmds else []).map
            (fun cmd => "ceph " ++ cmd ++ " --format json-pretty") := by
  cases env with
  | mk mp os w => cases mp <;> rfl

/-- The per-daemon command request of any run scans the selected base
directory and instantiates the fixed per-daemon command list per socket. -/
theorem daemon_call_setup (env : Env) :
    (daemon_call (CephMGR.setup env)).cmds
      = (get_socks env.walk (scan_dir env.microceph_pkg)).flatMap
          (fun m => ceph_daemon_cmds.map fun cmd => "ceph daemon " ++ m ++ " " ++ cmd) := by
  cases env with
  | mk mp os w => cases mp <;> rfl

/-- Length of a `flatMap` whose pieces all have the same length. -/
theorem length_flatMap_const {α β : Type} (l : List α) (f : α → List β) (n : Nat)
    (h : ∀ a, (f a).length = n) : (l.flatMap f).length = l.length * n := by
  induction l with
  | nil => simp
  | cons a t ih => simp [List.flatMap_cons, h, ih, Nat.succ_mul, Nat.add_comm]

/-- A `flatMap` all of whose pieces are empty is empty. -/
theorem flatMap_eq_nil_of_forall {α β : Type} (l : List α) (f : α → List β)
    (h : ∀ a ∈ l, f a = []) : l.flatMap f = [] := by
  induction l with
  | nil => rfl
  | cons a t ih =>
    simp [List.flatMap_cons, h a (by simp), ih fun b hb => h b (by simp [hb])]

/-! ## Claims -/

/-- Claim C1, counterexample: with the microceph package absent and a
failing orchestrator probe, the list passed to `add_forbidden_path` has six
entries, not four as claimed. -/
theorem cephmgr_forbidden_four_counterexample :
    env_std_noorch.microceph_pkg = false ∧
    env_std_noorch.orch_status ≠ 0 ∧
    (CephMGR.setup env_std_noorch).forbidden_paths.length = 6 ∧
    ¬ (CephMGR.setup env_std_noorch).forbidden_paths.length = 4 := by
  decide

/-- Claim C1 (amended): whenever the microceph package lookup returns absent
and the orchestrator probe returns non-zero, the forbidden-path patterns
passed to `add_forbidden_path` equal the standard-Ceph set of exactly six
entries, and contain no pattern under `/var/snap/microceph`. -/
theorem cephmgr_forbidden_standard_set (env : Env)
    (h1 : env.microceph_pkg = false) (h2 : env.orch_status ≠ 0) :
    (CephMGR.setup env).forbidden_paths = [
      "/etc/ceph/*keyring*",
      "/var/lib/ceph/**/*keyring*",
      "/var/lib/ceph/**/osd*",
      "/var/lib/ceph/**/mon*",
      "/var/lib/ceph/**/tmp/*mnt*",
      "/etc/ceph/*bindpass*"] ∧
    (CephMGR.setup env).forbidden_paths.length = 6 ∧
    (CephMGR.setup env).forbidden_paths.all
      (fun p => !(str_startswith p "/var/snap/microceph")) = true := by
  cases env with
  | mk mp os w =>
    cases mp with
    | false =>
      refine ⟨rfl, rfl, ?_⟩
      show (standard_forbidden.all
        fun p => !(str_startswith p "/var/snap/microceph")) = true
      decide
    | true => simp at h1

/-- Witness for `cephmgr_forbidden_standard_set` at `env_std_noorch`. -/
theorem cephmgr_forbidden_standard_set_witness :
    env_std_noorch.microceph_pkg = false ∧ env_std_noorch.orch_status ≠ 0 ∧
    ((CephMGR.setup env_std_noorch).forbidden_paths = [
      "/etc/ceph/*keyring*",
      "/var/lib/ceph/**/*keyring*",
      "/var/lib/ceph/**/osd*",
      "/var/lib/ceph/**/mon*",
      "/var/lib/ceph/**/tmp/*mnt*",
      "/etc/ceph/*bindpass*"] ∧
    (CephMGR.setup env_std_noorch).forbidden_paths.length = 6 ∧
    (CephMGR.setup env_std_noorch).forbidden_paths.all
      (fun p => !(str_startswith p "/var/snap/microceph")) = true) :=
  ⟨rfl, by decide, cephmgr_forbidden_standard_set env_std_noorch rfl (by decide)⟩

/-- Claim C2: `get_socks` returns exactly the walked files whose name starts
with `ceph-mgr` and ends with `.asok`; on the example tree it returns the
two `ceph-mgr*.asok` paths and excludes `other.asok`; the per-daemon request
has (#sockets × #per-daemon commands) commands, each parameterized by
exactly one socket path. -/
theorem cephmgr_get_socks_filter :
    (∀ (w : Walk) (d p : String),
      p ∈ get_socks w d ↔ ∃ e, e ∈ w d ∧ ∃ f, f ∈ e.files ∧
        (str_startswith f "ceph-mgr" && str_endswith f ".asok") = true ∧
        path_join e.rdir f = p) ∧
    get_socks example_walk "/var/run/ceph"
      = ["/var/run/ceph/ceph-mgr.asok", "/var/run/ceph/ceph-mgr.2.asok"] ∧
    (∀ env : Env, (daemon_call (CephMGR.setup env)).cmds.length
      = (get_socks env.walk (scan_dir env.microceph_pkg)).length
          * ceph_daemon_cmds.length) ∧
    (daemon_call (CephMGR.setup env_socks)).cmds.length = 2 * 16 ∧
    (∀ env : Env, ∀ c ∈ (daemon_call (CephMGR.setup env)).cmds,
      ∃ m, m ∈ get_socks env.walk (scan_dir env.microceph_pkg) ∧
        ∃ cmd, cmd ∈ ceph_daemon_cmds ∧
          c = "ceph daemon " ++ m ++ " " ++ cmd) := by
  refine ⟨?_, by decide, ?_, by decide, ?_⟩
  · intro w d p
    simp [get_socks, List.mem_flatMap, List.mem_map, List.mem_filter, and_assoc]
  · intro env
    rw [daemon_call_setup]
    exact length_flatMap_const _ _ _ fun m => by simp
  · intro env c hc
    rw [daemon_call_setup] at hc
    simp only [List.mem_flatMap, List.mem_map] at hc
    obtain ⟨m, hm, cmd, hcmd, h⟩ := hc
    exact ⟨m, hm, cmd, hcmd, h.symm⟩

/-- Claim C3: the JSON command list is the element-wise image of the plain
list under appending ` --format json-pretty`, it goes to subdirectory
`json_output`, and both `add_cmd_output` calls occur on every run (three
calls total, the plain one with no subdirectory). -/
theorem cephmgr_json_dual (env : Env) :
    (CephMGR.setup env).cmd_outputs.length = 3 ∧
    (json_call (CephMGR.setup env)).cmds
      = (plain_call (CephMGR.setup env)).cmds.map
          (fun c => c ++ " --format json-pretty") ∧
    (json_call (CephMGR.setup env)).subdir = some "json_output" ∧
    (plain_call (CephMGR.setup env)).subdir = none := by
  refine ⟨?_, ?_, ?_, ?_⟩
  · cases env with
    | mk mp os w => cases mp <;> rfl
  · rw [plain_call_setup, json_call_setup, List.map_map]
    rfl
  · cases env with
    | mk mp os w => cases mp <;> rfl
  · cases env with
    | mk mp os w => cases mp <;> rfl

/-- Claim C4: each of the seven orchestrator commands appears in the plain
command request exactly when the probe exit status is zero; a non-zero
status merely omits them (the run still produces its effects, no error). -/
theorem cephmgr_orch_iff (env : Env) :
    ceph_orch_cmds = ["orch host ls", "orch device ls", "orch ls",
      "orch ls --export", "orch ps", "orch status --detail",
      "orch upgrade status"] ∧
    ∀ c ∈ ceph_orch_cmds,
      (("ceph " ++ c) ∈ (plain_call (CephMGR.setup env)).cmds
        ↔ env.orch_status = 0) := by
  refine ⟨rfl, ?_⟩
  have hin : ∀ c ∈ ceph_orch_cmds,
      ("ceph " ++ c) ∈ (ceph_mgr_base_cmds ++ ceph_orch_cmds).map
        (fun cmd => "ceph " ++ cmd) := by decide
  have hout : ∀ c ∈ ceph_orch_cmds,
      ("ceph " ++ c) ∉ ceph_mgr_base_cmds.map (fun cmd => "ceph " ++ cmd) := by
    decide
  intro c hc
  rw [plain_call_setup]
  by_cases h : env.orch_status = 0
  · rw [if_pos h]
    exact ⟨fun _ => h, fun _ => hin c hc⟩
  · rw [if_neg h, List.append_nil]
    exact ⟨fun hm => absurd hm (hout c hc), fun h0 => absurd h0 h⟩

/-- Witness for `cephmgr_json_dual` at `env_socks`. -/
theorem cephmgr_json_dual_witness :
    (CephMGR.setup env_socks).cmd_outputs.length = 3 ∧
    (json_call (CephMGR.setup env_socks)).cmds
      = (plain_call (CephMGR.setup env_socks)).cmds.map
          (fun c => c ++ " --format json-pretty") ∧
    (json_call (CephMGR.setup env_socks)).subdir = some "json_output" ∧
    (plain_call (CephMGR.setup env_socks)).subdir = none :=
  cephmgr_json_dual env_socks

/-- Witness for `cephmgr_orch_iff` at `env_socks`. -/
theorem cephmgr_orch_iff_witness :
    ceph_orch_cmds = ["orch host ls", "orch device ls", "orch ls",
      "orch ls --export", "orch ps", "orch status --detail",
      "orch upgrade status"] ∧
    ∀ c ∈ ceph_orch_cmds,
      (("ceph " ++ c) ∈ (plain_call (CephMGR.setup env_socks)).cmds
        ↔ env_socks.orch_status = 0) :=
  cephmgr_orch_iff env_socks

/-- Claim C5: every `Samba.setup` run requests exactly the two literal copy
specs and exactly the three literal commands, unconditionally. -/
theorem samba_setup_fixed :
    Samba.setup.copy_specs = ["/etc/samba", "/var/log/samba/*"] ∧
    Samba.setup.copy_specs.length = 2 ∧
    Samba.setup.cmd_outputs = ["wbinfo --domain=\x27.\x27 -g",
      "wbinfo --domain=\x27.\x27 -u", "testparm -s -v"] ∧
    Samba.setup.cmd_outputs.length = 3 :=
  ⟨rfl, rfl, rfl, rfl⟩

/-- Claim C6: whenever the microceph package lookup returns present, the
copy specs are exactly the one microceph pattern, and no standard-Ceph
pattern (in particular not the `/var/lib/ceph/**/mgr*` one) is requested. -/
theorem cephmgr_micro_copy_specs (env : Env) (h : env.microceph_pkg = true) :
    (CephMGR.setup env).copy_specs
      = ["/var/snap/microceph/common/logs/ceph-mgr*.log"] ∧
    "/var/lib/ceph/**/mgr*" ∉ (CephMGR.setup env).copy_specs ∧
    ∀ p ∈ standard_copy_spec, p ∉ (CephMGR.setup env).copy_specs := by
  cases env with
  | mk mp os w =>
    cases mp with
    | true =>
      refine ⟨rfl, ?_, ?_⟩
      · show "/var/lib/ceph/**/mgr*" ∉ microceph_copy_spec
        decide
      · show ∀ p ∈ standard_copy_spec, p ∉ microceph_copy_spec
        decide
    | false => simp at h

/-- Witness for `cephmgr_micro_copy_specs` at `env_micro`. -/
theorem cephmgr_micro_copy_specs_witness :
    env_micro.microceph_pkg = true ∧
    ((CephMGR.setup env_micro).copy_specs
      = ["/var/snap/microceph/common/logs/ceph-mgr*.log"] ∧
    "/var/lib/ceph/**/mgr*" ∉ (CephMGR.setup env_micro).copy_specs ∧
    ∀ p ∈ standard_copy_spec, p ∉ (CephMGR.setup env_micro).copy_specs) :=
  ⟨rfl, cephmgr_micro_copy_specs env_micro rfl⟩

/-- Claim C7: the scan base directory is `/var/run/ceph` exactly when the
microceph package is absent and `/var/snap/microceph` when present, and
every run declares exactly one of the two distinct
(file-tag, forbidden-path, copy-spec) triples, selected by that same
lookup. -/
theorem cephmgr_variant_selection (env : Env) :
    ((CephMGR.setup env).file_tags, (CephMGR.setup env).forbidden_paths,
      (CephMGR.setup env).copy_specs)
      = (if env.microceph_pkg
          then (microceph_file_tags, microceph_forbidden, microceph_copy_spec)
          else (standard_file_tags, standard_forbidden, standard_copy_spec)) ∧
    scan_dir env.microceph_pkg
      = (if env.microceph_pkg then "/var/snap/microceph" else "/var/run/ceph") ∧
    (daemon_call (CephMGR.setup env)).cmds
      = (get_socks env.walk (scan_dir env.microceph_pkg)).flatMap
          (fun m => ceph_daemon_cmds.map
            fun cmd => "ceph daemon " ++ m ++ " " ++ cmd) ∧
    (microceph_file_tags, microceph_forbidden, microceph_copy_spec)
      ≠ (standard_file_tags, standard_forbidden, standard_copy_spec) := by
  refine ⟨?_, ?_, daemon_call_setup env, by decide⟩
  · cases env with
    | mk mp os w => cases mp <;> rfl
  · cases hm : env.microceph_pkg <;> rfl

/-- Witness for `cephmgr_variant_selection` at `env_micro`. -/
theorem cephmgr_variant_selection_witness :
    ((CephMGR.setup env_micro).file_tags,
      (CephMGR.setup env_micro).forbidden_paths,
      (CephMGR.setup env_micro).copy_specs)
      = (if env_micro.microceph_pkg
          then (microceph_file_tags, microceph_forbidden, microceph_copy_spec)
          else (standard_file_tags, standard_forbidden, standard_copy_spec)) ∧
    scan_dir env_micro.microceph_pkg
      = (if env_micro.microceph_pkg
          then "/var/snap/microceph" else "/var/run/ceph") ∧
    (daemon_call (CephMGR.setup env_micro)).cmds
      = (get_socks env_micro.walk (scan_dir env_micro.microceph_pkg)).flatMap
          (fun m => ceph_daemon_cmds.map
            fun cmd => "ceph daemon " ++ m ++ " " ++ cmd) ∧
    (microceph_file_tags, microceph_forbidden, microceph_copy_spec)
      ≠ (standard_file_tags, standard_forbidden, standard_copy_spec) :=
  cephmgr_variant_selection env_micro

/-- Claim C8: with the framework primitives returning normally (they are
total functions of the environment), the sequenced run `CephMGR.setupE`
never ends in `Except.error`: it always returns the effects of
`CephMGR.setup`, for every package-lookup result, probe status and walked
tree. -/
theorem cephmgr_setup_no_exception (env : Env) :
    CephMGR.setupE env = Except.ok (CephMGR.setup env) := by
  cases env with
  | mk mp os w => cases mp <;> rfl

/-- Witness for `cephmgr_setup_no_exception` at `env_std_noorch`. -/
theorem cephmgr_setup_no_exception_witness :
    CephMGR.setupE env_std_noorch = Except.ok (CephMGR.setup env_std_noorch) :=
  cephmgr_setup_no_exception env_std_noorch

/-- Claim C9: the per-daemon command list is the fixed 16-element list,
used unchanged by every run: the per-socket request always instantiates
exactly this list, and varying the probe status alone never changes the
per-daemon request. -/
theorem cephmgr_daemon_cmds_fixed :
    ceph_daemon_cmds = ["config diff", "config show", "counter dump",
      "counter schema", "dump_cache", "dump_mempools", "dump_osd_network",
      "mds_requests", "mds_sessions", "objecter_requests", "perf dump",
      "perf histogram dump", "perf histogram schema", "perf schema",
      "status", "version"] ∧
    ceph_daemon_cmds.length = 16 ∧
    (∀ env : Env, (daemon_call (CephMGR.setup env)).cmds
      = (get_socks env.walk (scan_dir env.microceph_pkg)).flatMap
          (fun m => ceph_daemon_cmds.map
            fun cmd => "ceph daemon " ++ m ++ " " ++ cmd)) ∧
    (∀ (mp : Bool) (s t : Int) (w : Walk),
      (daemon_call (CephMGR.setup ⟨mp, s, w⟩)).cmds
        = (daemon_call (CephMGR.setup ⟨mp, t, w⟩)).cmds) := by
  refine ⟨rfl, rfl, daemon_call_setup, ?_⟩
  intro mp s t w
  rw [daemon_call_setup, daemon_call_setup]

/-- Claim C10: when the walked tree under the selected base directory holds
no file named `ceph-mgr*.asok` (in particular when the walk is empty),
`get_socks` returns `[]` and the per-daemon `add_cmd_output` request
receives the empty command list. -/
theorem cephmgr_no_socks_empty (env : Env)
    (h : ((env.walk (scan_dir env.microceph_pkg)).all
      fun e => e.files.all fun f =>
        !(str_startswith f "ceph-mgr" && str_endswith f ".asok")) = true) :
    get_socks env.walk (scan_dir env.microceph_pkg) = [] ∧
    (daemon_call (CephMGR.setup env)).cmds = [] := by
  rw [List.all_eq_true] at h
  have hg : get_socks env.walk (scan_dir env.microceph_pkg) = [] := by
    unfold get_socks
    apply flatMap_eq_nil_of_forall
    intro e he
    have he2 := h e he
    rw [List.all_eq_true] at he2
    have hf : (e.files.filter fun file =>
        str_startswith file "ceph-mgr" && str_endswith file ".asok") = [] := by
      rw [List.filter_eq_nil_iff]
      intro a ha
      have := he2 a ha
      simp only [Bool.not_eq_eq_eq_not, Bool.not_true] at this
      simp [this]
    rw [hf, List.map_nil]
  refine ⟨hg, ?_⟩
  rw [daemon_call_setup, hg, List.flatMap_nil]

/-- Witness for `cephmgr_no_socks_empty` at `env_nosocks`. -/
theorem cephmgr_no_socks_empty_witness :
    ((env_nosocks.walk (scan_dir env_nosocks.microceph_pkg)).all
      fun e => e.files.all fun f =>
        !(str_startswith f "ceph-mgr" && str_endswith f ".asok")) = true ∧
    (get_socks env_nosocks.walk (scan_dir env_nosocks.microceph_pkg) = [] ∧
     (daemon_call (CephMGR.setup env_nosocks)).cmds = []) :=
  ⟨by decide, cephmgr_no_socks_empty env_nosocks (by decide)⟩

end Sos
